import Mathlib

/-!
Shallow embedding of the SpeechCraft processing server
(`src/controllers/processingController.js`, `src/services/openaiService.js`,
`src/services/supabaseService.js`, `src/middleware/auth.js`).

Strings are Lean `String`; machine side effects (the Supabase store, the
OpenAI API, the user-counter RPC) are made explicit: each run of the
controller is a pure function of the note row, the environment's outcome
flags for each external operation, and it returns the HTTP response
together with the trace of persisted note updates, external completion
calls and counter-increment attempts.
-/

namespace SpeechCraft

/-- Whitespace stripped by JavaScript's `String.prototype.trim` on the
inputs this development evaluates (space, tab, CR, LF). -/
def isJsWhitespace (c : Char) : Bool :=
  c = ' ' || c = '\t' || c = '\n' || c = '\r'

/-- Model of JavaScript `s.trim()`: strip whitespace from both ends. -/
def jsTrim (s : String) : String :=
  String.mk (((s.toList.dropWhile isJsWhitespace).reverse.dropWhile isJsWhitespace).reverse)

/-- Replace the first occurrence of `pat` in a character list by `repl`,
as JavaScript `String.prototype.replace` does for a plain-string
pattern. -/
def listReplaceFirst (pat repl : List Char) : List Char → List Char
  | [] => []
  | c :: cs =>
    if pat.isPrefixOf (c :: cs) then repl ++ (c :: cs).drop pat.length
    else c :: listReplaceFirst pat repl cs

/-- JavaScript `s.replace(pat, repl)` for a plain-string pattern:
only the first occurrence is replaced. -/
def jsReplaceFirst (s pat repl : String) : String :=
  String.mk (listReplaceFirst pat.toList repl.toList s.toList)

/-- Does `pat` occur as a contiguous substring of `l`? -/
def hasSubstring : List Char → List Char → Bool
  | l, pat =>
    if pat.isPrefixOf l then true
    else match l with
      | [] => false
      | _ :: cs => hasSubstring cs pat

/-- Does `pat` occur as a contiguous substring of `s`? -/
def containsSub (s pat : String) : Bool := hasSubstring s.toList pat.toList

/-- Model of JavaScript `s.replace(/[.!?]/g, '\n• ')` used by the todo
fallback in `OpenAIService._createFallbackText`: every `.`, `!` or `?`
becomes a newline-bullet separator. -/
def replaceSentencePunct (s : String) : String :=
  String.mk (s.toList.foldr
    (fun c acc => if c = '.' || c = '!' || c = '?'
      then '\n' :: '•' :: ' ' :: acc else c :: acc) [])

/-- The four prompt templates of `OpenAIService.prompts`, keyed by note
type; `none` for a key outside the map (JS `this.prompts[noteType]`
being `undefined`). Template bodies are abbreviated to their identifying
head line plus the `{text}` slot; only selection is claim-relevant. -/
def promptFor (noteType : String) : Option String :=
  if noteType = "meeting" then
    some "Transform this speech transcript into professional meeting notes:\n\nInput: \"\x7btext\x7d\""
  else if noteType = "todo" then
    some "Convert this speech into actionable tasks:\n\nInput: \"\x7btext\x7d\""
  else if noteType = "idea" then
    some "Enhance and structure this creative idea:\n\nInput: \"\x7btext\x7d\""
  else if noteType = "general" then
    some "Improve and format this note:\n\nInput: \"\x7btext\x7d\""
  else none

/-- `OpenAIService._createFallbackText`: locally synthesized substitute
output when the completion call fails. -/
def createFallbackText (originalText noteType : String) : String :=
  let cleanText := jsTrim originalText
  if noteType = "meeting" then
    "# Meeting Notes\n\n**Discussion:**\n" ++ cleanText ++
      "\n\n**Note:** Enhanced formatting temporarily unavailable."
  else if noteType = "todo" then
    "# Task List\n\n• " ++ replaceSentencePunct cleanText ++
      "\n\n**Note:** Enhanced formatting temporarily unavailable."
  else if noteType = "idea" then
    "# Creative Idea\n\n**Concept:**\n" ++ cleanText ++
      "\n\n**Note:** Enhanced formatting temporarily unavailable."
  else
    "# Note\n\n" ++ cleanText ++
      "\n\n**Note:** Enhanced formatting temporarily unavailable."

/-- The note type actually used by `OpenAIService.processNote`: empty
input throws before the coercion, so the raw type survives into the
catch branch; otherwise an unknown type is coerced to `general`. -/
def effectiveNoteType (originalText noteType : String) : String :=
  if jsTrim originalText = "" then noteType
  else if (promptFor noteType).isSome then noteType else "general"

/-- Result object of `OpenAIService.processNote`. -/
structure OpenAIResult where
  processedText : String
  tokensUsed : Nat
  success : Bool
  /-- note type after the unknown-category coercion (field `noteType`). -/
  noteType : String
  /-- a warning was logged for an unknown note type. -/
  warned : Bool
  /-- the chat-completions endpoint was actually invoked. -/
  apiAttempted : Bool
  /-- prompt sent to the completion endpoint, when one was sent. -/
  promptUsed : Option String
  deriving Repr, DecidableEq

/-- Outcome of the external chat-completions endpoint: `none` = the call
throws (service unavailable), `some (text, tokens)` = it answers. -/
abbrev ApiOutcome := Option (String × Nat)

/-- `OpenAIService.processNote originalText noteType`: validates the
input, coerces an unknown note type to `general` with a warning, calls
the completion endpoint, and on any failure returns the category
fallback with zero tokens instead of raising. -/
def openaiProcessNote (originalText noteType : String) (api : ApiOutcome) : OpenAIResult :=
  if jsTrim originalText = "" then
    -- `throw new Error('Original text is required')`, caught by the
    -- service's own catch: fallback built with the uncoerced type.
    { processedText := createFallbackText originalText noteType,
      tokensUsed := 0, success := false, noteType := noteType,
      warned := false, apiAttempted := false, promptUsed := none }
  else
    let warned := (promptFor noteType).isNone
    let nt := if (promptFor noteType).isSome then noteType else "general"
    let prompt := jsReplaceFirst ((promptFor nt).getD "") "\x7btext\x7d" (jsTrim originalText)
    match api with
    | some (text, tokens) =>
      { processedText := jsTrim text, tokensUsed := tokens, success := true,
        noteType := nt, warned := warned, apiAttempted := true,
        promptUsed := some prompt }
    | none =>
      { processedText := createFallbackText originalText nt,
        tokensUsed := 0, success := false, noteType := nt,
        warned := warned, apiAttempted := true, promptUsed := some prompt }

/-- A row of the `notes` table, restricted to the fields the Processor
reads or writes. -/
structure Note where
  id : String
  user_id : String
  original_text : String
  processed_text : Option String
  note_type : String
  processing_status : String
  tokens_used : Option Nat
  processing_time : Option Nat
  deriving Repr, DecidableEq

/-- Result of the `check_user_limits` server-side routine. -/
structure UserLimits where
  limit_reached : Bool
  monthly_note_count : Nat
  notes_remaining : Nat
  subscription_tier : String
  deriving Repr, DecidableEq

/-- Argument of `SupabaseService.updateNoteProcessing`: only the fields
present (`some`) are written to the row. -/
structure UpdateData where
  processedText : Option String
  status : Option String
  tokensUsed : Option Nat
  processingTime : Option Nat
  deriving Repr, DecidableEq

/-- Apply one persisted update to a note row, field by field, as the
store's `update` does for the fields `updateNoteProcessing` sets. -/
def applyUpdate (n : Note) (u : UpdateData) : Note :=
  { n with
    processed_text := match u.processedText with
      | some t => some t
      | none => n.processed_text
    processing_status := u.status.getD n.processing_status,
    tokens_used := match u.tokensUsed with
      | some k => some k
      | none => n.tokens_used
    processing_time := match u.processingTime with
      | some k => some k
      | none => n.processing_time }

/-- Outcome flags of the external operations one `processNote` run may
perform.  `lookupThrows`: `getNoteById` raises; `limitsResult = none`:
`checkUserLimits` raises; `updateThrows k`: the `k`-th
`updateNoteProcessing` call of the run raises (and persists nothing);
`incrementThrows`: the `increment_note_count` RPC raises; `api` is the
chat-completions outcome. -/
structure Env where
  lookupThrows : Bool
  limitsResult : Option UserLimits
  updateThrows : Nat → Bool
  incrementThrows : Bool
  api : ApiOutcome

/-- The HTTP response of `ProcessingController.processNote`, restricted
to the claim-relevant fields of the JSON body. -/
structure Response where
  status : Nat
  success : Bool
  error : Option String
  message : String
  dataProcessedText : Option String
  dataTokensUsed : Option Nat
  dataProcessingTime : Option Nat
  dataAlreadyProcessed : Bool
  dataOpenaiSuccess : Option Bool
  dataProcessingStatus : Option String
  dataMonthlyCount : Option Nat
  dataSubscriptionTier : Option String
  deriving Repr, DecidableEq

/-- Response skeleton; each exit point of the controller overrides the
fields it actually sets. -/
def baseResp : Response :=
  { status := 200, success := false, error := none, message := "",
    dataProcessedText := none, dataTokensUsed := none,
    dataProcessingTime := none, dataAlreadyProcessed := false,
    dataOpenaiSuccess := none, dataProcessingStatus := none,
    dataMonthlyCount := none, dataSubscriptionTier := none }

/-- One run of `processNote`: the HTTP response plus the observable
trace — persisted note updates in order, number of chat-completions
invocations, number of counter-increment RPC attempts, and the
`OpenAIService` result when one was produced. -/
structure RunResult where
  resp : Response
  writes : List UpdateData
  externalCalls : Nat
  increments : Nat
  openaiResult : Option OpenAIResult
  deriving Repr, DecidableEq

/-- The catch-all handler of `processNote`: best-effort write of status
`failed` (itself allowed to fail silently), then a 500
`PROCESSING_ERROR` response.  `idx` is the index the next
`updateNoteProcessing` call would get. -/
def catchRun (env : Env) (idx : Nat) (writes : List UpdateData)
    (ext incr : Nat) (oar : Option OpenAIResult) : RunResult :=
  let writes' :=
    if env.updateThrows idx then writes
    else writes ++ [{ processedText := none, status := some "failed",
                      tokensUsed := none, processingTime := none }]
  { resp := { baseResp with
              status := 500, success := false,
              error := some "PROCESSING_ERROR", message := "Processing failed" },
    writes := writes', externalCalls := ext, increments := incr,
    openaiResult := oar }

/-- Suffix appended to the original text when the monthly limit is
reached. -/
def limitSuffix : String :=
  "\n\n**Note: Monthly processing limit reached. Please upgrade to premium.**"

/-- `ProcessingController.processNote` (`POST /api/process`): validate
the id, fetch the note, short-circuit on `completed`, enforce the usage
limit, write `processing`, run the completion service, write the
terminal state, and increment the user's counter only on a successful
completion call; any unexpected exception falls into `catchRun`. -/
def processNote (noteId? : Option String) (note? : Option Note) (env : Env) : RunResult :=
  match noteId? with
  | none =>
    { resp := { baseResp with
                status := 400, error := some "MISSING_NOTE_ID",
                message := "Note ID is required" },
      writes := [], externalCalls := 0, increments := 0, openaiResult := none }
  | some _ =>
    if env.lookupThrows then catchRun env 0 [] 0 0 none
    else
      match note? with
      | none =>
        { resp := { baseResp with
                    status := 404, error := some "NOTE_NOT_FOUND",
                    message := "Note not found" },
          writes := [], externalCalls := 0, increments := 0, openaiResult := none }
      | some note =>
        if note.processing_status = "completed" then
          { resp := { baseResp with
                      status := 200, success := true,
                      message := "Note already processed",
                      dataProcessedText := note.processed_text,
                      dataTokensUsed := note.tokens_used,
                      dataProcessingTime := note.processing_time,
                      dataAlreadyProcessed := true },
            writes := [], externalCalls := 0, increments := 0, openaiResult := none }
        else
          match env.limitsResult with
          | none => catchRun env 0 [] 0 0 none
          | some limits =>
            if limits.limit_reached then
              if env.updateThrows 0 then catchRun env 1 [] 0 0 none
              else
                { resp := { baseResp with
                            status := 429,
                            error := some "LIMIT_REACHED",
                            message := "Monthly processing limit reached",
                            dataMonthlyCount := some limits.monthly_note_count,
                            dataSubscriptionTier := some limits.subscription_tier },
                  writes := [{ processedText := some (note.original_text ++ limitSuffix),
                               status := some "failed", tokensUsed := none,
                               processingTime := none }],
                  externalCalls := 0, increments := 0, openaiResult := none }
            else
              if env.updateThrows 0 then catchRun env 1 [] 0 0 none
              else
                let w0 : UpdateData :=
                  { processedText := none, status := some "processing",
                    tokensUsed := none, processingTime := none }
                let result := openaiProcessNote note.original_text note.note_type env.api
                let ext := if result.apiAttempted then 1 else 0
                if env.updateThrows 1 then catchRun env 2 [w0] ext 0 (some result)
                else
                  let w1 : UpdateData :=
                    { processedText := some result.processedText,
                      status := some (if result.success then "completed" else "failed"),
                      tokensUsed := some result.tokensUsed,
                      processingTime := some 0 }
                  if result.success then
                    if env.incrementThrows then catchRun env 2 [w0, w1] ext 1 (some result)
                    else
                      { resp := { baseResp with
                                  status := 200, success := true,
                                  message := "Note processed successfully",
                                  dataProcessedText := some result.processedText,
                                  dataTokensUsed := some result.tokensUsed,
                                  dataProcessingTime := some 0,
                                  dataOpenaiSuccess := some true,
                                  dataProcessingStatus := some "completed" },
                        writes := [w0, w1], externalCalls := ext, increments := 1,
                        openaiResult := some result }
                  else
                    { resp := { baseResp with
                                status := 200, success := true,
                                message := "Note processing completed with fallback",
                                dataProcessedText := some result.processedText,
                                dataTokensUsed := some result.tokensUsed,
                                dataProcessingTime := some 0,
                                dataOpenaiSuccess := some false,
                                dataProcessingStatus := some "failed" },
                      writes := [w0, w1], externalCalls := ext, increments := 0,
                      openaiResult := some result }

/-- The note row after a run: its persisted updates folded over the
initial row. -/
def runFinalNote (note : Note) (r : RunResult) : Note :=
  r.writes.foldl applyUpdate note

/-- The processing-status transitions a run's writes perform: for each
update that sets the status, the pair (status before, status written). -/
def statusTransitions (note : Note) (r : RunResult) : List (String × String) :=
  (r.writes.foldl
    (fun (acc : List (String × String) × Note) u =>
      match u.status with
      | some s => (acc.1 ++ [(acc.2.processing_status, s)], applyUpdate acc.2 u)
      | none => (acc.1, applyUpdate acc.2 u))
    ([], note)).1

/-- Response of `ProcessingController.getProcessingStatus`
(`GET /api/status/:noteId`). -/
structure StatusResponse where
  status : Nat
  success : Bool
  processingStatus : Option String
  hasProcessedText : Option Bool
  deriving Repr, DecidableEq

/-- `ProcessingController.getProcessingStatus`: report the stored
processing status of a note. -/
def getProcessingStatus (noteId? : Option String) (note? : Option Note)
    (lookupThrows : Bool) : StatusResponse :=
  match noteId? with
  | none => ⟨400, false, none, none⟩
  | some _ =>
    if lookupThrows then ⟨500, false, none, none⟩
    else
      match note? with
      | none => ⟨404, false, none, none⟩
      | some note =>
        ⟨200, true, some note.processing_status,
          some (match note.processed_text with
                | some t => t ≠ ""
                | none => false)⟩

/-- JavaScript `authorization?.replace('Bearer ', '')`. -/
def stripBearerOnce (s : String) : String := jsReplaceFirst s "Bearer " ""

/-- The key `apiKeyAuth` works with:
`req.headers['x-api-key'] || req.headers['authorization']?.replace('Bearer ', '')`,
with JavaScript truthiness (an empty string counts as absent). -/
def effectiveApiKey (xApiKey authorization : Option String) : Option String :=
  let fromX : Option String :=
    match xApiKey with
    | some k => if k = "" then none else some k
    | none => none
  match fromX with
  | some k => some k
  | none =>
    match authorization with
    | some a =>
      let r := stripBearerOnce a
      if r = "" then none else some r
    | none => none

/-- Outcome of the `apiKeyAuth` middleware: the response it sends, or
status 200 with `authenticated := true` when it calls `next()`. -/
structure AuthResult where
  status : Nat
  error : Option String
  authenticated : Bool
  deriving Repr, DecidableEq

/-- `apiKeyAuth` middleware (`src/middleware/auth.js`): missing key →
401 `MISSING_API_KEY`; unconfigured server secret (absent or empty
environment variable, JavaScript falsiness) → 500 `CONFIG_ERROR`;
mismatched key under exact string comparison → 401 `INVALID_API_KEY`;
otherwise the request proceeds authenticated. -/
def apiKeyAuth (xApiKey authorization envSecret : Option String) : AuthResult :=
  match effectiveApiKey xApiKey authorization with
  | none => ⟨401, some "MISSING_API_KEY", false⟩
  | some apiKey =>
    match envSecret with
    | none => ⟨500, some "CONFIG_ERROR", false⟩
    | some secret =>
      if secret = "" then ⟨500, some "CONFIG_ERROR", false⟩
      else if apiKey = secret then ⟨200, none, true⟩
      else ⟨401, some "INVALID_API_KEY", false⟩

/-! Concrete rows and environments used as witnesses and
counterexamples. -/

/-- A note already in `completed` status. -/
def cNoteCompleted : Note :=
  ⟨"n1", "u1", "hello there", some "stored!", "general", "completed", some 42, some 3⟩

/-- A pending todo note with the spec's scenario text. -/
def cNotePending : Note :=
  ⟨"n2", "u1", "buy milk. call mom.", none, "todo", "pending", none, none⟩

/-- Usage limits not yet reached. -/
def cLimitsOk : UserLimits := ⟨false, 5, 45, "free"⟩

/-- Usage limits exhausted. -/
def cLimitsReached : UserLimits := ⟨true, 50, 0, "free"⟩

/-- Benign environment: every store call succeeds, the completion
endpoint answers. -/
def cEnvOk : Env := ⟨false, some cLimitsOk, fun _ => false, false, some ("AI text", 99)⟩

/-- Environment whose completion endpoint is unavailable. -/
def cEnvApiFail : Env := ⟨false, some cLimitsOk, fun _ => false, false, none⟩

/-- Environment where only the counter-increment RPC raises. -/
def cEnvIncThrow : Env := ⟨false, some cLimitsOk, fun _ => false, true, some ("AI text", 99)⟩

/-- Environment where the limit check raises and every update raises:
the best-effort failure write persists nothing. -/
def cEnvDouble : Env := ⟨false, none, fun _ => true, false, some ("AI text", 99)⟩

/-- Environment reporting the monthly limit as reached. -/
def cEnvLimit : Env := ⟨false, some cLimitsReached, fun _ => false, false, some ("AI text", 99)⟩

/-- C1: for every note whose processing status is already `completed`,
`processNote` returns the stored processed result unchanged (processed
text, token count, processing time, `alreadyProcessed: true`, HTTP
200), performs no call to the external completion service, no counter
increment, and no persisted write. -/
theorem c1_completed_short_circuit (noteId : String) (note : Note) (env : Env)
    (hst : note.processing_status = "completed")
    (hlk : env.lookupThrows = false) :
    processNote (some noteId) (some note) env =
      ⟨⟨200, true, none, "Note already processed", note.processed_text,
        note.tokens_used, note.processing_time, true, none, none, none, none⟩,
       [], 0, 0, none⟩ := by
  simp [processNote, hlk, hst, baseResp]

/-- Witness for C1 at a concrete completed note and benign
environment. -/
theorem c1_completed_short_circuit_witness :
    cNoteCompleted.processing_status = "completed" ∧
    cEnvOk.lookupThrows = false ∧
    processNote (some "n1") (some cNoteCompleted) cEnvOk =
      ⟨⟨200, true, none, "Note already processed", cNoteCompleted.processed_text,
        cNoteCompleted.tokens_used, cNoteCompleted.processing_time, true, none,
        none, none, none⟩, [], 0, 0, none⟩ :=
  ⟨rfl, rfl, c1_completed_short_circuit "n1" cNoteCompleted cEnvOk rfl rfl⟩

/-- C7: in the `apiKeyAuth` middleware, a request with neither an
`x-api-key` header nor an `Authorization` bearer gets 401 with code
`MISSING_API_KEY`; a request whose key is present but differs from the
configured secret under exact string comparison gets 401 with code
`INVALID_API_KEY`; and the two failure codes are distinct. -/
theorem c7_auth_codes (x auth secret : Option String) (k s : String)
    (hx : x = some k) (hk : k ≠ "")
    (hs : secret = some s) (hsne : s ≠ "") (hne : k ≠ s) :
    (apiKeyAuth none none secret = ⟨401, some "MISSING_API_KEY", false⟩) ∧
    (apiKeyAuth x auth secret = ⟨401, some "INVALID_API_KEY", false⟩) ∧
    ("MISSING_API_KEY" : String) ≠ "INVALID_API_KEY" := by
  subst hx hs
  refine ⟨by simp [apiKeyAuth, effectiveApiKey], ?_, by decide⟩
  simp [apiKeyAuth, effectiveApiKey, hk, hsne, hne]

/-- Witness for C7 with a concrete wrong key against a configured
secret. -/
theorem c7_auth_codes_witness :
    (some "wrong" : Option String) = some "wrong" ∧ ("wrong" : String) ≠ "" ∧
    (some "s3cret" : Option String) = some "s3cret" ∧ ("s3cret" : String) ≠ "" ∧
    ("wrong" : String) ≠ "s3cret" ∧
    ((apiKeyAuth none none (some "s3cret") = ⟨401, some "MISSING_API_KEY", false⟩) ∧
     (apiKeyAuth (some "wrong") none (some "s3cret") = ⟨401, some "INVALID_API_KEY", false⟩) ∧
     ("MISSING_API_KEY" : String) ≠ "INVALID_API_KEY") :=
  ⟨rfl, by decide, rfl, by decide, by decide,
   c7_auth_codes (some "wrong") none (some "s3cret") "wrong" "s3cret"
     rfl (by decide) rfl (by decide) (by decide)⟩

/-- C10: when the server's shared secret is unconfigured (absent or
empty environment variable), any request that does supply an API key
gets 500 with code `CONFIG_ERROR`, not a 401, and is never treated as
authenticated. -/
theorem c10_unconfigured_secret (x auth secret : Option String) (k : String)
    (hk : effectiveApiKey x auth = some k)
    (hs : secret = none ∨ secret = some "") :
    apiKeyAuth x auth secret = ⟨500, some "CONFIG_ERROR", false⟩ ∧
    (apiKeyAuth x auth secret).status ≠ 401 ∧
    (apiKeyAuth x auth secret).authenticated = false := by
  have h : apiKeyAuth x auth secret = ⟨500, some "CONFIG_ERROR", false⟩ := by
    rcases hs with hs | hs <;> subst hs <;> simp [apiKeyAuth, hk]
  exact ⟨h, by rw [h]; decide, by rw [h]⟩

/-- Witness for C10: a key supplied over the bearer header while the
secret is unset. -/
theorem c10_unconfigured_secret_witness :
    effectiveApiKey none (some "Bearer abc") = some "abc" ∧
    ((none : Option String) = none ∨ (none : Option String) = some "") ∧
    (apiKeyAuth none (some "Bearer abc") none = ⟨500, some "CONFIG_ERROR", false⟩ ∧
     (apiKeyAuth none (some "Bearer abc") none).status ≠ 401 ∧
     (apiKeyAuth none (some "Bearer abc") none).authenticated = false) :=
  ⟨by decide, Or.inl rfl,
   c10_unconfigured_secret none (some "Bearer abc") none "abc" (by decide) (Or.inl rfl)⟩

/-- C4: when the owning user's usage limit is exceeded, `processNote`
never invokes the external completion service and attempts no counter
increment; and (when the store write goes through) it persists the note
as `failed` with the original text plus the appended limit message, and
answers 429 `LIMIT_REACHED` carrying the current monthly count and
subscription tier. -/
theorem c4_limit_reached (noteId : String) (note : Note) (env : Env) (L : UserLimits)
    (hlk : env.lookupThrows = false)
    (hst : note.processing_status ≠ "completed")
    (hL : env.limitsResult = some L)
    (hlim : L.limit_reached = true) :
    (processNote (some noteId) (some note) env).externalCalls = 0 ∧
    (processNote (some noteId) (some note) env).increments = 0 ∧
    (env.updateThrows 0 = false →
      processNote (some noteId) (some note) env =
        ⟨⟨429, false, some "LIMIT_REACHED", "Monthly processing limit reached",
          none, none, none, false, none, none, some L.monthly_note_count,
          some L.subscription_tier⟩,
         [⟨some (note.original_text ++ limitSuffix), some "failed", none, none⟩],
         0, 0, none⟩ ∧
      (runFinalNote note (processNote (some noteId) (some note) env)).processing_status
        = "failed" ∧
      (runFinalNote note (processNote (some noteId) (some note) env)).processed_text
        = some (note.original_text ++ limitSuffix)) := by
  by_cases h0 : env.updateThrows 0
  · refine ⟨?_, ?_, ?_⟩ <;>
      simp [processNote, hlk, hst, hL, hlim, h0, catchRun]
  · simp only [Bool.not_eq_true] at h0
    refine ⟨?_, ?_, fun _ => ⟨?_, ?_, ?_⟩⟩ <;>
      simp [processNote, hlk, hst, hL, hlim, h0, baseResp,
        runFinalNote, applyUpdate]

/-- Witness for C4 at the concrete pending note and limit-reached
environment. -/
theorem c4_limit_reached_witness :
    cEnvLimit.lookupThrows = false ∧
    cNotePending.processing_status ≠ "completed" ∧
    cEnvLimit.limitsResult = some cLimitsReached ∧
    cLimitsReached.limit_reached = true ∧
    ((processNote (some "n2") (some cNotePending) cEnvLimit).externalCalls = 0 ∧
     (processNote (some "n2") (some cNotePending) cEnvLimit).increments = 0 ∧
     (cEnvLimit.updateThrows 0 = false →
       processNote (some "n2") (some cNotePending) cEnvLimit =
         ⟨⟨429, false, some "LIMIT_REACHED", "Monthly processing limit reached",
           none, none, none, false, none, none, some cLimitsReached.monthly_note_count,
           some cLimitsReached.subscription_tier⟩,
          [⟨some (cNotePending.original_text ++ limitSuffix), some "failed", none, none⟩],
          0, 0, none⟩ ∧
       (runFinalNote cNotePending
           (processNote (some "n2") (some cNotePending) cEnvLimit)).processing_status
         = "failed" ∧
       (runFinalNote cNotePending
           (processNote (some "n2") (some cNotePending) cEnvLimit)).processed_text
         = some (cNotePending.original_text ++ limitSuffix))) :=
  ⟨rfl, by decide, rfl, rfl,
   c4_limit_reached "n2" cNotePending cEnvLimit cLimitsReached rfl (by decide) rfl rfl⟩

/-- C6: for every category outside {meeting, todo, idea, general} the
completion service coerces the type to `general`, selects the general
prompt template, and logs a warning; the processing request is not
rejected for the unknown category — the completion call still runs
(succeeding when the endpoint answers) and the controller still
answers 200 without an error code. -/
theorem c6_unknown_category (originalText noteType : String) (api : ApiOutcome)
    (hunk : promptFor noteType = none) (hne : jsTrim originalText ≠ "") :
    (openaiProcessNote originalText noteType api).noteType = "general" ∧
    (openaiProcessNote originalText noteType api).warned = true ∧
    (openaiProcessNote originalText noteType api).promptUsed =
      some (jsReplaceFirst ((promptFor "general").getD "") "\x7btext\x7d"
        (jsTrim originalText)) ∧
    (∀ t k, api = some (t, k) →
      (openaiProcessNote originalText noteType api).success = true) ∧
    (∀ noteId note env L,
      note.original_text = originalText → note.note_type = noteType →
      env.api = api → env.lookupThrows = false →
      note.processing_status ≠ "completed" →
      env.limitsResult = some L → L.limit_reached = false →
      env.updateThrows 0 = false → env.updateThrows 1 = false →
      env.incrementThrows = false →
      (processNote (some noteId) (some note) env).resp.status = 200 ∧
      (processNote (some noteId) (some note) env).resp.error = none) := by
  have hbase :
      (openaiProcessNote originalText noteType api).noteType = "general" ∧
      (openaiProcessNote originalText noteType api).warned = true ∧
      (openaiProcessNote originalText noteType api).promptUsed =
        some (jsReplaceFirst ((promptFor "general").getD "") "\x7btext\x7d"
          (jsTrim originalText)) ∧
      (∀ t k, api = some (t, k) →
        (openaiProcessNote originalText noteType api).success = true) := by
    rcases api with _ | ⟨t, k⟩ <;>
      simp [openaiProcessNote, hne, hunk]
  refine ⟨hbase.1, hbase.2.1, hbase.2.2.1, hbase.2.2.2, ?_⟩
  intro noteId note env L hot hnt hapi hlk hst hL hlim h0 h1 hinc
  subst hot hnt hapi
  by_cases hsucc : (openaiProcessNote note.original_text note.note_type env.api).success <;>
    simp [processNote, hlk, hst, hL, hlim, h0, h1, hinc, hsucc, baseResp]

/-- Witness for C6: category `recipe` on a live completion endpoint and
a benign controller environment. -/
theorem c6_unknown_category_witness :
    promptFor "recipe" = none ∧ jsTrim "hello" ≠ "" ∧
    (openaiProcessNote "hello" "recipe" (some ("AI text", 99))).noteType = "general" ∧
    (openaiProcessNote "hello" "recipe" (some ("AI text", 99))).warned = true ∧
    (openaiProcessNote "hello" "recipe" (some ("AI text", 99))).success = true ∧
    (processNote (some "n4")
        (some ⟨"n4", "u1", "hello", none, "recipe", "pending", none, none⟩)
        cEnvOk).resp.status = 200 ∧
    (processNote (some "n4")
        (some ⟨"n4", "u1", "hello", none, "recipe", "pending", none, none⟩)
        cEnvOk).resp.error = none := by
  have h := c6_unknown_category "hello" "recipe" (some ("AI text", 99))
    rfl (by decide)
  have h5 := h.2.2.2.2 "n4" ⟨"n4", "u1", "hello", none, "recipe", "pending", none, none⟩
    cEnvOk cLimitsOk rfl rfl rfl rfl (by decide) rfl rfl rfl rfl rfl
  exact ⟨rfl, by decide, h.1, h.2.1, h.2.2.2.1 "AI text" 99 rfl, h5.1, h5.2⟩

/-- Helper: the counter-increment RPC is attempted in a run exactly when
the completion service was reached with a successful outcome and the
terminal note update did not throw. -/
theorem increments_char (noteId? : Option String) (note? : Option Note) (env : Env) :
    (processNote noteId? note? env).increments =
      (match (processNote noteId? note? env).openaiResult with
       | some oar => if oar.success = true ∧ env.updateThrows 1 = false then 1 else 0
       | none => 0) := by
  rcases noteId? with _ | id
  · rfl
  rcases note? with _ | note
  · by_cases hlk : env.lookupThrows <;> by_cases h0 : env.updateThrows 0 <;>
      simp [processNote, catchRun, hlk, h0]
  by_cases hlk : env.lookupThrows
  · by_cases h0 : env.updateThrows 0 <;> simp [processNote, catchRun, hlk, h0]
  by_cases hst : note.processing_status = "completed"
  · simp [processNote, hlk, hst]
  rcases hL : env.limitsResult with _ | L
  · by_cases h0 : env.updateThrows 0 <;> simp [processNote, catchRun, hlk, hst, hL, h0]
  by_cases hlim : L.limit_reached
  · by_cases h0 : env.updateThrows 0 <;> by_cases h1 : env.updateThrows 1 <;>
      simp [processNote, catchRun, hlk, hst, hL, hlim, h0, h1]
  by_cases h0 : env.updateThrows 0
  · by_cases h1 : env.updateThrows 1 <;> simp [processNote, catchRun, hlk, hst, hL, hlim, h0, h1]
  by_cases h1 : env.updateThrows 1
  · simp [processNote, catchRun, hlk, hst, hL, hlim, h0, h1]
  by_cases hsucc : (openaiProcessNote note.original_text note.note_type env.api).success <;>
    by_cases hinc : env.incrementThrows <;>
      simp [processNote, catchRun, hlk, hst, hL, hlim, h0, h1, hsucc, hinc]

/-- C2: per `processNote` call the monthly counter is incremented at
most once; exactly once when the external completion call succeeded
(and the terminal write went through); and never when the completion
call failed, the note was absent, the note was already completed, or
the limit-reached path terminated the call. -/
theorem c2_increment_once (noteId? : Option String) (note? : Option Note) (env : Env) :
    (processNote noteId? note? env).increments ≤ 1 ∧
    (∀ oar, (processNote noteId? note? env).openaiResult = some oar → oar.success = false →
      (processNote noteId? note? env).increments = 0) ∧
    (env.updateThrows 1 = false →
      ∀ oar, (processNote noteId? note? env).openaiResult = some oar → oar.success = true →
        (processNote noteId? note? env).increments = 1) ∧
    (note? = none → (processNote noteId? note? env).increments = 0) ∧
    (∀ note, note? = some note → note.processing_status = "completed" →
      (processNote noteId? note? env).increments = 0) ∧
    (∀ L, env.limitsResult = some L → L.limit_reached = true →
      (processNote noteId? note? env).increments = 0) := by
  have hchar := increments_char noteId? note? env
  refine ⟨?_, ?_, ?_, ?_, ?_, ?_⟩
  · rw [hchar]
    rcases (processNote noteId? note? env).openaiResult with _ | oar
    · simp
    · dsimp only
      split <;> simp
  · intro oar hoar hfail
    rw [hchar, hoar]
    simp [hfail]
  · intro h1 oar hoar hsucc
    rw [hchar, hoar]
    simp [hsucc, h1]
  · rintro rfl
    rcases noteId? with _ | id
    · rfl
    by_cases hlk : env.lookupThrows <;> by_cases h0 : env.updateThrows 0 <;>
      simp [processNote, catchRun, hlk, h0]
  · rintro note rfl hst
    rcases noteId? with _ | id
    · rfl
    by_cases hlk : env.lookupThrows
    · by_cases h0 : env.updateThrows 0 <;> simp [processNote, catchRun, hlk, h0]
    · simp [processNote, hlk, hst]
  · intro L hL hlim
    rcases noteId? with _ | id
    · rfl
    rcases note? with _ | note
    · by_cases hlk : env.lookupThrows <;> by_cases h0 : env.updateThrows 0 <;>
        simp [processNote, catchRun, hlk, h0]
    by_cases hlk : env.lookupThrows
    · by_cases h0 : env.updateThrows 0 <;> simp [processNote, catchRun, hlk, h0]
    by_cases hst : note.processing_status = "completed"
    · simp [processNote, hlk, hst]
    by_cases h0 : env.updateThrows 0 <;>
      simp [processNote, catchRun, hlk, hst, hL, hlim, h0]

/-- Witness for C2: a successful benign run attempts exactly one
increment, the limit-reached run attempts none. -/
theorem c2_increment_once_witness :
    cEnvOk.updateThrows 1 = false ∧
    (processNote (some "n2") (some cNotePending) cEnvOk).openaiResult =
      some (openaiProcessNote cNotePending.original_text cNotePending.note_type cEnvOk.api) ∧
    (openaiProcessNote cNotePending.original_text cNotePending.note_type cEnvOk.api).success
      = true ∧
    (processNote (some "n2") (some cNotePending) cEnvOk).increments = 1 ∧
    cEnvLimit.limitsResult = some cLimitsReached ∧
    cLimitsReached.limit_reached = true ∧
    (processNote (some "n2") (some cNotePending) cEnvLimit).increments = 0 :=
  ⟨rfl, by decide, by decide,
   (c2_increment_once (some "n2") (some cNotePending) cEnvOk).2.2.1 rfl
     (openaiProcessNote cNotePending.original_text cNotePending.note_type cEnvOk.api)
     (by decide) (by decide),
   rfl, rfl,
   (c2_increment_once (some "n2") (some cNotePending) cEnvLimit).2.2.2.2.2
     cLimitsReached rfl rfl⟩

/-- Helper: a string appears as a substring of any affixed extension of
itself. -/
theorem hasSubstring_affix (pat suf : List Char) :
    ∀ pre : List Char, hasSubstring (pre ++ (pat ++ suf)) pat = true := by
  intro pre
  induction pre with
  | nil =>
    unfold hasSubstring
    rw [if_pos]
    rw [List.isPrefixOf_iff_prefix]
    exact List.prefix_append pat suf
  | cons c cs ih =>
    unfold hasSubstring
    split
    · rfl
    · exact ih

/-- Helper: `containsSub` finds the middle of a three-part
concatenation. -/
theorem containsSub_affix (pre mid suf : String) :
    containsSub (pre ++ mid ++ suf) mid = true := by
  unfold containsSub
  have h : (pre ++ mid ++ suf).toList = pre.toList ++ (mid.toList ++ suf.toList) := by
    simp [String.toList]
  rw [h]
  exact hasSubstring_affix mid.toList suf.toList pre.toList

/-- Helper: on a failed completion call the service result is the
category fallback with zero tokens and `success := false`. -/
theorem openai_fail_result (originalText noteType : String) :
    (openaiProcessNote originalText noteType none).processedText =
      createFallbackText originalText (effectiveNoteType originalText noteType) ∧
    (openaiProcessNote originalText noteType none).tokensUsed = 0 ∧
    (openaiProcessNote originalText noteType none).success = false := by
  by_cases h : jsTrim originalText = "" <;>
    simp [openaiProcessNote, effectiveNoteType, h]

/-- Helper: every fallback template except the todo one contains the
trimmed original text verbatim. -/
theorem createFallbackText_contains (originalText nt : String) (hnt : nt ≠ "todo") :
    containsSub (createFallbackText originalText nt) (jsTrim originalText) = true := by
  unfold createFallbackText
  by_cases h1 : nt = "meeting"
  · rw [if_pos h1]
    exact containsSub_affix _ _ _
  rw [if_neg h1, if_neg hnt]
  by_cases h2 : nt = "idea"
  · rw [if_pos h2]
    exact containsSub_affix _ _ _
  · rw [if_neg h2]
    exact containsSub_affix _ _ _

/-- C3 counterexample: on the claim's own scenario — category `todo`,
text `"buy milk. call mom."`, completion service unavailable — the note
is persisted `failed` with 0 tokens and the response is 200 with
`openaiSuccess:false`, but the persisted fallback text does NOT contain
the original input text verbatim: the todo fallback replaces every
`.`, `!`, `?` with a bullet separator. -/
theorem c3_counterexample :
    (runFinalNote cNotePending
        (processNote (some "n2") (some cNotePending) cEnvApiFail)).processing_status
      = "failed" ∧
    (runFinalNote cNotePending
        (processNote (some "n2") (some cNotePending) cEnvApiFail)).tokens_used
      = some 0 ∧
    (processNote (some "n2") (some cNotePending) cEnvApiFail).resp.status = 200 ∧
    (processNote (some "n2") (some cNotePending) cEnvApiFail).resp.dataOpenaiSuccess
      = some false ∧
    cNotePending.original_text = "buy milk. call mom." ∧
    (runFinalNote cNotePending
        (processNote (some "n2") (some cNotePending) cEnvApiFail)).processed_text
      = some "# Task List\n\n• buy milk\n•  call mom\n• \n\n**Note:** Enhanced formatting temporarily unavailable." ∧
    ((runFinalNote cNotePending
        (processNote (some "n2") (some cNotePending) cEnvApiFail)).processed_text.map
      (fun t => containsSub t "buy milk. call mom.")) = some false := by
  decide

/-- C3 amended: on an external-completion failure the note is persisted
`failed` with token count exactly 0 and the HTTP response is still 200
with `openaiSuccess:false`; the persisted processed text is the
category-specific static fallback built from the trimmed original text,
which contains the original verbatim for every category except `todo`,
whose fallback replaces each `.`, `!`, `?` of the original with a
bullet separator. -/
theorem c3_amended (noteId : String) (note : Note) (env : Env) (L : UserLimits)
    (hlk : env.lookupThrows = false)
    (hst : note.processing_status ≠ "completed")
    (hL : env.limitsResult = some L) (hlim : L.limit_reached = false)
    (h0 : env.updateThrows 0 = false) (h1 : env.updateThrows 1 = false)
    (hapi : env.api = none) :
    (processNote (some noteId) (some note) env).resp.status = 200 ∧
    (processNote (some noteId) (some note) env).resp.success = true ∧
    (processNote (some noteId) (some note) env).resp.dataOpenaiSuccess = some false ∧
    (runFinalNote note (processNote (some noteId) (some note) env)).processing_status
      = "failed" ∧
    (runFinalNote note (processNote (some noteId) (some note) env)).tokens_used
      = some 0 ∧
    (runFinalNote note (processNote (some noteId) (some note) env)).processed_text
      = some (createFallbackText note.original_text
          (effectiveNoteType note.original_text note.note_type)) ∧
    (effectiveNoteType note.original_text note.note_type ≠ "todo" →
      containsSub
        (createFallbackText note.original_text
          (effectiveNoteType note.original_text note.note_type))
        (jsTrim note.original_text) = true) := by
  have hores := openai_fail_result note.original_text note.note_type
  have hsucc : (openaiProcessNote note.original_text note.note_type none).success
      = false := hores.2.2
  refine ⟨?_, ?_, ?_, ?_, ?_, ?_, fun hnt => createFallbackText_contains _ _ hnt⟩ <;>
    simp [processNote, hlk, hst, hL, hlim, h0, h1, hapi, hsucc, baseResp,
      runFinalNote, applyUpdate, hores.1, hores.2.1]

/-- Witness for the amended C3 at a concrete general-category note. -/
theorem c3_amended_witness :
    cEnvApiFail.lookupThrows = false ∧
    cEnvApiFail.limitsResult = some cLimitsOk ∧
    cLimitsOk.limit_reached = false ∧
    cEnvApiFail.updateThrows 0 = false ∧
    cEnvApiFail.updateThrows 1 = false ∧
    cEnvApiFail.api = none ∧
    ((processNote (some "n5")
        (some ⟨"n5", "u1", "hello there", none, "general", "pending", none, none⟩)
        cEnvApiFail).resp.status = 200 ∧
     (runFinalNote ⟨"n5", "u1", "hello there", none, "general", "pending", none, none⟩
        (processNote (some "n5")
          (some ⟨"n5", "u1", "hello there", none, "general", "pending", none, none⟩)
          cEnvApiFail)).processing_status = "failed" ∧
     containsSub (createFallbackText "hello there" (effectiveNoteType "hello there" "general"))
       (jsTrim "hello there") = true) := by
  have h := c3_amended "n5"
    ⟨"n5", "u1", "hello there", none, "general", "pending", none, none⟩
    cEnvApiFail cLimitsOk rfl (by decide) rfl rfl rfl rfl rfl
  exact ⟨rfl, rfl, rfl, rfl, rfl, rfl, h.1, h.2.2.2.1, h.2.2.2.2.2.2 (by decide)⟩

/-- C9 counterexample: on the already-completed path `processNote`
performs zero persisted note updates, not the one the claim states. -/
theorem c9_counterexample :
    cNoteCompleted.processing_status = "completed" ∧
    (processNote (some "n1") (some cNoteCompleted) cEnvOk).writes.length = 0 ∧
    (processNote (some "n1") (some cNoteCompleted) cEnvOk).writes.length ≠ 1 := by
  decide

/-- C9 amended: with no store exception, a `processNote` call persists
exactly two note updates on the success and failure-fallback paths, one
on the limit-reached path, and zero on the already-completed path; in
every environment, at most one persisted update per terminal state per
call. -/
theorem c9_amended (noteId : String) (note : Note) (env : Env) (L : UserLimits)
    (hlk : env.lookupThrows = false)
    (hL : env.limitsResult = some L)
    (h0 : env.updateThrows 0 = false) (h1 : env.updateThrows 1 = false)
    (hinc : env.incrementThrows = false) :
    (note.processing_status = "completed" →
      (processNote (some noteId) (some note) env).writes.length = 0) ∧
    (note.processing_status ≠ "completed" → L.limit_reached = true →
      (processNote (some noteId) (some note) env).writes.length = 1) ∧
    (note.processing_status ≠ "completed" → L.limit_reached = false →
      (processNote (some noteId) (some note) env).writes.length = 2) ∧
    (∀ noteId?' note?' env',
      ((processNote noteId?' note?' env').writes.filter
        (fun u => u.status == some "completed")).length ≤ 1 ∧
      ((processNote noteId?' note?' env').writes.filter
        (fun u => u.status == some "failed")).length ≤ 1) := by
  refine ⟨?_, ?_, ?_, ?_⟩
  · intro hst
    simp [processNote, hlk, hst]
  · intro hst hlim
    simp [processNote, hlk, hst, hL, hlim, h0]
  · intro hst hlim
    by_cases hsucc : (openaiProcessNote note.original_text note.note_type env.api).success <;>
      simp [processNote, hlk, hst, hL, hlim, h0, h1, hinc, hsucc]
  · intro noteId?' note?' env'
    rcases noteId?' with _ | id'
    · simp [processNote]
    rcases note?' with _ | note'
    · by_cases hlk' : env'.lookupThrows <;> by_cases hu0 : env'.updateThrows 0 <;>
        simp [processNote, catchRun, hlk', hu0]
    by_cases hlk' : env'.lookupThrows
    · by_cases hu0 : env'.updateThrows 0 <;> simp [processNote, catchRun, hlk', hu0]
    by_cases hst' : note'.processing_status = "completed"
    · simp [processNote, hlk', hst']
    rcases hL' : env'.limitsResult with _ | L'
    · by_cases hu0 : env'.updateThrows 0 <;> simp [processNote, catchRun, hlk', hst', hL', hu0]
    by_cases hlim' : L'.limit_reached
    · by_cases hu0 : env'.updateThrows 0 <;> by_cases hu1 : env'.updateThrows 1 <;>
        simp [processNote, catchRun, hlk', hst', hL', hlim', hu0, hu1]
    by_cases hu0 : env'.updateThrows 0
    · by_cases hu1 : env'.updateThrows 1 <;>
        simp [processNote, catchRun, hlk', hst', hL', hlim', hu0, hu1]
    by_cases hu1 : env'.updateThrows 1
    · by_cases hu2 : env'.updateThrows 2 <;>
        simp [processNote, catchRun, hlk', hst', hL', hlim', hu0, hu1, hu2]
    by_cases hsucc' : (openaiProcessNote note'.original_text note'.note_type env'.api).success <;>
      by_cases hinc' : env'.incrementThrows <;>
        by_cases hu2 : env'.updateThrows 2 <;>
          simp [processNote, catchRun, hlk', hst', hL', hlim', hu0, hu1, hu2, hsucc', hinc']

/-- Witness for the amended C9: the benign fallback run persists two
updates. -/
theorem c9_amended_witness :
    cEnvApiFail.lookupThrows = false ∧
    cEnvApiFail.limitsResult = some cLimitsOk ∧
    cEnvApiFail.updateThrows 0 = false ∧
    cEnvApiFail.updateThrows 1 = false ∧
    cEnvApiFail.incrementThrows = false ∧
    cNotePending.processing_status ≠ "completed" ∧
    cLimitsOk.limit_reached = false ∧
    (processNote (some "n2") (some cNotePending) cEnvApiFail).writes.length = 2 :=
  ⟨rfl, rfl, rfl, rfl, rfl, by decide, rfl,
   (c9_amended "n2" cNotePending cEnvApiFail cLimitsOk rfl rfl rfl rfl rfl).2.2.1
     (by decide) rfl⟩

/-- C5 counterexample: a run in which the counter-increment RPC throws
after the terminal `completed` write makes the catch-all handler
overwrite the just-completed note with `failed`: the write sequence is
pending→processing→completed→failed, so a status observed `completed`
within the call is subsequently written to `failed`. -/
theorem c5_counterexample :
    cNotePending.processing_status = "pending" ∧
    statusTransitions cNotePending
        (processNote (some "n2") (some cNotePending) cEnvIncThrow) =
      [("pending", "processing"), ("processing", "completed"), ("completed", "failed")] ∧
    ("completed", "failed") ∈ statusTransitions cNotePending
      (processNote (some "n2") (some cNotePending) cEnvIncThrow) := by
  decide

/-- C5 amended: every status write writes `processing`, `completed` or
`failed` (never `pending`); `completed` is written only on top of
`processing`; a note observed `completed` at the entry check triggers no
write at all; the only write ever applied on top of `completed` is the
catch-all handler's best-effort `failed` write, which requires either
the counter-increment RPC to have thrown after the terminal `completed`
write or the initial lookup to have thrown (status unobserved); and a
`failed` note is not short-circuited — a benign re-run reaches the
completion service again. -/
theorem c5_amended (noteId? : Option String) (note : Note) (env : Env) :
    (note.processing_status = "completed" → env.lookupThrows = false →
      (processNote noteId? (some note) env).writes = []) ∧
    (∀ p ∈ statusTransitions note (processNote noteId? (some note) env),
      (p.2 = "processing" ∨ p.2 = "completed" ∨ p.2 = "failed") ∧
      (p.2 = "completed" → p.1 = "processing") ∧
      (p.1 = "completed" →
        p.2 = "failed" ∧ (env.incrementThrows = true ∨ env.lookupThrows = true))) ∧
    (∀ id, noteId? = some id → note.processing_status = "failed" →
      env.lookupThrows = false →
      ∀ L, env.limitsResult = some L → L.limit_reached = false →
        env.updateThrows 0 = false → env.updateThrows 1 = false →
        (processNote noteId? (some note) env).openaiResult.isSome = true) := by
  refine ⟨?_, ?_, ?_⟩
  · intro hst hlk
    rcases noteId? with _ | id
    · rfl
    simp [processNote, hlk, hst]
  · rcases noteId? with _ | id
    · intro p hp
      simp [processNote, statusTransitions] at hp
    by_cases hlk : env.lookupThrows
    · by_cases hu0 : env.updateThrows 0 <;> intro p hp <;>
        simp [processNote, catchRun, statusTransitions, applyUpdate, hlk, hu0] at hp
      subst hp
      exact ⟨Or.inr (Or.inr rfl), by simp, fun _ => ⟨rfl, Or.inr hlk⟩⟩
    by_cases hst : note.processing_status = "completed"
    · intro p hp
      simp [processNote, statusTransitions, hlk, hst] at hp
    rcases hL : env.limitsResult with _ | L
    · by_cases hu0 : env.updateThrows 0 <;> intro p hp <;>
        simp [processNote, catchRun, statusTransitions, applyUpdate, hlk, hst, hL, hu0] at hp
      subst hp
      exact ⟨Or.inr (Or.inr rfl), by simp, fun h => absurd h hst⟩
    by_cases hlim : L.limit_reached
    · by_cases hu0 : env.updateThrows 0
      · by_cases hu1 : env.updateThrows 1 <;> intro p hp <;>
          simp [processNote, catchRun, statusTransitions, applyUpdate, hlk, hst, hL, hlim,
            hu0, hu1] at hp
        subst hp
        exact ⟨Or.inr (Or.inr rfl), by simp, fun h => absurd h hst⟩
      · intro p hp
        simp [processNote, catchRun, statusTransitions, applyUpdate, hlk, hst, hL, hlim,
          hu0] at hp
        subst hp
        exact ⟨Or.inr (Or.inr rfl), by simp, fun h => absurd h hst⟩
    by_cases hu0 : env.updateThrows 0
    · by_cases hu1 : env.updateThrows 1 <;> intro p hp <;>
        simp [processNote, catchRun, statusTransitions, applyUpdate, hlk, hst, hL, hlim,
          hu0, hu1] at hp
      subst hp
      exact ⟨Or.inr (Or.inr rfl), by simp, fun h => absurd h hst⟩
    by_cases hu1 : env.updateThrows 1
    · by_cases hu2 : env.updateThrows 2 <;> intro p hp <;>
        simp [processNote, catchRun, statusTransitions, applyUpdate, hlk, hst, hL, hlim,
          hu0, hu1, hu2] at hp
      · subst hp
        exact ⟨Or.inl rfl, by simp, fun h => absurd h hst⟩
      · rcases hp with rfl | rfl
        · exact ⟨Or.inl rfl, by simp, fun h => absurd h hst⟩
        · exact ⟨Or.inr (Or.inr rfl), by simp, by simp⟩
    by_cases hsucc : (openaiProcessNote note.original_text note.note_type env.api).success
    · by_cases hinc : env.incrementThrows
      · by_cases hu2 : env.updateThrows 2 <;> intro p hp <;>
          simp [processNote, catchRun, statusTransitions, applyUpdate, hlk, hst, hL, hlim,
            hu0, hu1, hu2, hsucc, hinc] at hp
        · rcases hp with rfl | rfl
          · exact ⟨Or.inl rfl, by simp, fun h => absurd h hst⟩
          · exact ⟨Or.inr (Or.inl rfl), fun _ => rfl, by simp⟩
        · rcases hp with rfl | rfl | rfl
          · exact ⟨Or.inl rfl, by simp, fun h => absurd h hst⟩
          · exact ⟨Or.inr (Or.inl rfl), fun _ => rfl, by simp⟩
          · exact ⟨Or.inr (Or.inr rfl), by simp, fun _ => ⟨rfl, Or.inl hinc⟩⟩
      · intro p hp
        simp [processNote, statusTransitions, applyUpdate, hlk, hst, hL, hlim,
          hu0, hu1, hsucc, hinc] at hp
        rcases hp with rfl | rfl
        · exact ⟨Or.inl rfl, by simp, fun h => absurd h hst⟩
        · exact ⟨Or.inr (Or.inl rfl), fun _ => rfl, by simp⟩
    · intro p hp
      simp [processNote, statusTransitions, applyUpdate, hlk, hst, hL, hlim,
        hu0, hu1, hsucc] at hp
      rcases hp with rfl | rfl
      · exact ⟨Or.inl rfl, by simp, fun h => absurd h hst⟩
      · exact ⟨Or.inr (Or.inr rfl), by simp, by simp⟩
  · rintro id rfl hst hlk L hL hlim hu0 hu1
    by_cases hsucc : (openaiProcessNote note.original_text note.note_type env.api).success <;>
      by_cases hinc : env.incrementThrows <;>
        simp [processNote, catchRun, hlk, hst, hL, hlim, hu0, hu1, hsucc, hinc]

/-- Witness for the amended C5: the completed note yields no writes; in
the increment-throw run the completed→failed transition is the
catch-handler case the amendment describes. -/
theorem c5_amended_witness :
    cNoteCompleted.processing_status = "completed" ∧ cEnvOk.lookupThrows = false ∧
    (processNote (some "n1") (some cNoteCompleted) cEnvOk).writes = [] ∧
    (("completed", "failed").2 = "failed" ∧
      (cEnvIncThrow.incrementThrows = true ∨ cEnvIncThrow.lookupThrows = true)) :=
  ⟨rfl, rfl,
   (c5_amended (some "n1") cNoteCompleted cEnvOk).1 rfl rfl,
   ((c5_amended (some "n2") cNotePending cEnvIncThrow).2.1 ("completed", "failed")
       (by decide)).2.2 rfl⟩

/-- C8 counterexample: when the limit check throws and the best-effort
`failed` write in the catch-all handler itself throws, `processNote`
returns (500) with no persisted write, and a subsequent `getStatus`
still reports `pending` — contradicting "never reports pending". -/
theorem c8_counterexample :
    (processNote (some "n2") (some cNotePending) cEnvDouble).resp.status = 500 ∧
    (processNote (some "n2") (some cNotePending) cEnvDouble).writes = [] ∧
    (getProcessingStatus (some "n2")
        (some (runFinalNote cNotePending
          (processNote (some "n2") (some cNotePending) cEnvDouble))) false).processingStatus
      = some "pending" := by
  decide

/-- C8 amended: provided every persisted update a run attempts succeeds
(the best-effort failure write included), after a `processNote` call on
an existing note a subsequent `getStatus` reports the persisted status,
which is `completed` or `failed` and never `pending`; if the
best-effort write can itself fail the note may remain in its prior
status. -/
theorem c8_amended (noteId : String) (note : Note) (env : Env)
    (hupd : ∀ k, env.updateThrows k = false) :
    ((runFinalNote note (processNote (some noteId) (some note) env)).processing_status
        = "completed" ∨
     (runFinalNote note (processNote (some noteId) (some note) env)).processing_status
        = "failed") ∧
    (getProcessingStatus (some noteId)
        (some (runFinalNote note
          (processNote (some noteId) (some note) env))) false).processingStatus
      = some (runFinalNote note
          (processNote (some noteId) (some note) env)).processing_status ∧
    (getProcessingStatus (some noteId)
        (some (runFinalNote note
          (processNote (some noteId) (some note) env))) false).processingStatus
      ≠ some "pending" := by
  have h1 : (runFinalNote note (processNote (some noteId) (some note) env)).processing_status
        = "completed" ∨
      (runFinalNote note (processNote (some noteId) (some note) env)).processing_status
        = "failed" := by
    by_cases hlk : env.lookupThrows
    · simp [processNote, catchRun, runFinalNote, applyUpdate, hlk, hupd 0]
    by_cases hst : note.processing_status = "completed"
    · simp [processNote, runFinalNote, hlk, hst]
    rcases hL : env.limitsResult with _ | L
    · simp [processNote, catchRun, runFinalNote, applyUpdate, hlk, hst, hL, hupd 0]
    by_cases hlim : L.limit_reached
    · simp [processNote, runFinalNote, applyUpdate, hlk, hst, hL, hlim, hupd 0]
    by_cases hsucc : (openaiProcessNote note.original_text note.note_type env.api).success <;>
      by_cases hinc : env.incrementThrows <;>
        simp [processNote, catchRun, runFinalNote, applyUpdate, hlk, hst, hL, hlim,
          hupd 0, hupd 1, hupd 2, hsucc, hinc]
  refine ⟨h1, by simp [getProcessingStatus], ?_⟩
  rcases h1 with h | h <;> simp [getProcessingStatus, h]

/-- Witness for the amended C8 on the benign fallback run. -/
theorem c8_amended_witness :
    (∀ k, cEnvApiFail.updateThrows k = false) ∧
    ((runFinalNote cNotePending
        (processNote (some "n2") (some cNotePending) cEnvApiFail)).processing_status
        = "completed" ∨
     (runFinalNote cNotePending
        (processNote (some "n2") (some cNotePending) cEnvApiFail)).processing_status
        = "failed") ∧
    (getProcessingStatus (some "n2")
        (some (runFinalNote cNotePending
          (processNote (some "n2") (some cNotePending) cEnvApiFail))) false).processingStatus
      ≠ some "pending" :=
  ⟨fun _ => rfl,
   (c8_amended "n2" cNotePending cEnvApiFail (fun _ => rfl)).1,
   (c8_amended "n2" cNotePending cEnvApiFail (fun _ => rfl)).2.2⟩

end SpeechCraft
